import Mathlib

/-!
Verification of the scoring and plotting script `src/app.py` of the
SearchEmbeddingScores repository.

The script computes closed-form ranking scores over real-valued inputs and
samples them on 100×100 grids. We embed the two scoring functions, the grid
sampler of `generate_plots`, and the output filename computation.

Python's float division raises `ZeroDivisionError` when the denominator is
exactly zero, so the scoring functions are embedded as `Option ℝ`,
returning `none` precisely when the denominator of the distance term is zero.
Dates (`datetime.datetime` values) are embedded as real-valued timestamps in
seconds; `(item_date - reference_date).total_seconds()` becomes subtraction.
-/

open Classical

/-- `OUTPUT_DIR = './plots'` (src/app.py line 17). -/
def OUTPUT_DIR : String := "./plots"

/-- `calculate_top_score(distance, bookmarks, is_descending)` (src/app.py lines 21–44):
`distance_factor = 1 / ((distance + 0.01) ** 2)`; descending adds
`np.log1p(bookmarks) * 2`, ascending adds `np.exp(-bookmarks / 5) * 20`.
`none` models the `ZeroDivisionError` raised when `(distance + 0.01) ** 2 == 0`. -/
noncomputable def calculate_top_score (distance bookmarks : ℝ) (is_descending : Bool) :
    Option ℝ :=
  let epsilon : ℝ := 0.01
  if (distance + epsilon) ^ 2 = 0 then
    none
  else
    let distance_factor := 1 / (distance + epsilon) ^ 2
    if is_descending then
      some (distance_factor + Real.log (1 + bookmarks) * 2)
    else
      some (distance_factor + Real.exp (-bookmarks / 5) * 20)

/-- `calculate_date_score(distance, item_date, reference_date, is_descending)`
(src/app.py lines 46–73): `base_score = 1 / (distance + 0.01)`;
`date_difference = abs((item_date - reference_date).total_seconds()) / 3600`;
descending adds `np.exp(-abs(date_difference) ** 0.25) * 100`, ascending adds
`np.log1p(abs(date_difference) ** 0.25) * 1`. `none` models the
`ZeroDivisionError` raised when `distance + 0.01 == 0`. -/
noncomputable def calculate_date_score (distance item_date reference_date : ℝ)
    (is_descending : Bool) : Option ℝ :=
  let epsilon : ℝ := 0.01
  if distance + epsilon = 0 then
    none
  else
    let base_score := 1 / (distance + epsilon)
    let date_difference := |item_date - reference_date| / 3600
    let date_score :=
      if is_descending then
        Real.exp (-(|date_difference| ^ (0.25 : ℝ))) * 100
      else
        Real.log (1 + |date_difference| ^ (0.25 : ℝ)) * 1
    some (base_score + date_score)

/-- The i-th sample of `np.linspace(a, b, n)`: `a + (b - a) * i / (n - 1)`
(evenly spaced, endpoints included). -/
noncomputable def linspace_val (a b : ℝ) (n i : ℕ) : ℝ :=
  a + (b - a) * i / ((n : ℝ) - 1)

/-- `np.linspace(a, b, n)`: `n` evenly spaced samples from `a` to `b`. -/
noncomputable def linspace (a b : ℝ) (n : ℕ) : List ℝ :=
  (List.range n).map (linspace_val a b n)

/-- The y-range of a scale (src/app.py lines 130–146): either a numeric
bookmark-count interval, or a symmetric `datetime.timedelta` interval,
embedded by its bounds in total seconds. -/
inductive YRange where
  | numeric (lo hi : ℝ)
  | timedelta (lo hi : ℝ)

/-- A scale tuple `(x_range, y_range, label)` (src/app.py line 97). -/
structure Scale where
  x_range : ℝ × ℝ
  y_range : YRange
  label : String

/-- The score grid computed for one scale inside `generate_plots`
(src/app.py lines 94–115): rows indexed by the 100 y-samples, columns by
the 100 x-samples. For a timedelta scale the y-samples are
`ref_date + sec` for `sec` evenly spaced over the timedelta bounds in
seconds, scored by `calculate_date_score` against `ref_date`
(`ref_date = datetime.datetime.now()` at line 103); for a numeric scale
they are scored by `calculate_top_score`. Orientation is
`'Desc' in scenario` (line 94). -/
noncomputable def score_grid (scenario : String) (scale : Scale) (ref_date : ℝ) :
    List (List (Option ℝ)) :=
  let is_descending := String.containsSubstr scenario "Desc"
  let x_points := linspace scale.x_range.1 scale.x_range.2 100
  match scale.y_range with
  | .timedelta lo hi =>
      (linspace lo hi 100).map fun sec =>
        x_points.map fun x =>
          calculate_date_score x (ref_date + sec) ref_date is_descending
  | .numeric lo hi =>
      (linspace lo hi 100).map fun y =>
        x_points.map fun x =>
          calculate_top_score x y is_descending

/-- `SCALES_BOOKMARKS` (src/app.py lines 131–136). -/
noncomputable def SCALES_BOOKMARKS : List Scale :=
  [⟨(0, 1), .numeric 0 10, "XS Range"⟩,
   ⟨(0, 1), .numeric 0 100, "S Range"⟩,
   ⟨(0, 1), .numeric 0 10000, "L Range"⟩,
   ⟨(0, 1), .numeric 0 1000000, "XL Range"⟩]

/-- `SCALES_DATES` (src/app.py lines 139–146), timedelta bounds in seconds. -/
noncomputable def SCALES_DATES : List Scale :=
  [⟨(0, 1), .timedelta (-1) 1, "Seconds Range"⟩,
   ⟨(0, 1), .timedelta (-3600) 3600, "Hours Range"⟩,
   ⟨(0, 1), .timedelta (-86400) 86400, "Days Range"⟩,
   ⟨(0, 1), .timedelta (-604800) 604800, "Weeks Range"⟩,
   ⟨(0, 1), .timedelta (-2419200) 2419200, "Months Range"⟩,
   ⟨(0, 1), .timedelta (-31449600) 31449600, "Years Range"⟩]

/-- `sort_options` (src/app.py lines 149–154). -/
def sort_options : List String :=
  ["EmbedTopAsc", "EmbedTopDesc", "EmbedDateCreatedAsc", "EmbedDateCreatedDesc"]

/-- The path written by `plt.savefig(f'.../{scenario}_combined.png')`
(src/app.py line 127). -/
def savefig_path (scenario : String) : String :=
  OUTPUT_DIR ++ "/" ++ scenario ++ "_combined.png"

/-- The image files written by a complete run: one `savefig_path` per scenario,
in the order of the four `generate_plots` calls (src/app.py lines 157–160). -/
def output_files : List String :=
  sort_options.map savefig_path

/-! ## Claim theorems -/

/-- C1: for every distance `d` (away from the `ZeroDivisionError` point
`d = -0.01`, where neither side denotes) and every bookmark count `b`,
`calculate_top_score d b true = 1/((d+0.01)^2) + ln(1+b)*2` and
`calculate_top_score d b false = 1/((d+0.01)^2) + exp(-b/5)*20`. -/
theorem c1_top_score_formulas (d b : ℝ) (h : (d + 0.01) ^ 2 ≠ 0) :
    calculate_top_score d b true = some (1 / (d + 0.01) ^ 2 + Real.log (1 + b) * 2) ∧
    calculate_top_score d b false = some (1 / (d + 0.01) ^ 2 + Real.exp (-b / 5) * 20) := by
  constructor <;> simp [calculate_top_score, h]

theorem c1_top_score_formulas_witness :
    ((0.5 : ℝ) + 0.01) ^ 2 ≠ 0 ∧
    (calculate_top_score 0.5 3 true
        = some (1 / ((0.5 : ℝ) + 0.01) ^ 2 + Real.log (1 + 3) * 2) ∧
      calculate_top_score 0.5 3 false
        = some (1 / ((0.5 : ℝ) + 0.01) ^ 2 + Real.exp (-3 / 5) * 20)) :=
  ⟨by norm_num, c1_top_score_formulas 0.5 3 (by norm_num)⟩

/-- C2: for every distance `d` (away from the `ZeroDivisionError` point
`d = -0.01`) and timestamps `t1`, `t2`, with `h = |t1 - t2| / 3600` hours,
`calculate_date_score d t1 t2 true = 1/(d+0.01) + exp(-h^0.25)*100` and
`calculate_date_score d t1 t2 false = 1/(d+0.01) + ln(1+h^0.25)`; the
distance term is the single inverse power `1/(d+0.01)`, not squared. -/
theorem c2_date_score_formulas (d t1 t2 : ℝ) (h : d + 0.01 ≠ 0) :
    calculate_date_score d t1 t2 true
      = some (1 / (d + 0.01) + Real.exp (-((|t1 - t2| / 3600) ^ (0.25 : ℝ))) * 100) ∧
    calculate_date_score d t1 t2 false
      = some (1 / (d + 0.01) + Real.log (1 + (|t1 - t2| / 3600) ^ (0.25 : ℝ))) := by
  have habs : abs (|t1 - t2| / 3600) = |t1 - t2| / 3600 := abs_of_nonneg (by positivity)
  constructor <;> simp [calculate_date_score, h, habs]

theorem c2_date_score_formulas_witness :
    (2 : ℝ) + 0.01 ≠ 0 ∧
    (calculate_date_score 2 7200 0 true
        = some (1 / ((2 : ℝ) + 0.01) + Real.exp (-((|(7200 : ℝ) - 0| / 3600) ^ (0.25 : ℝ))) * 100) ∧
      calculate_date_score 2 7200 0 false
        = some (1 / ((2 : ℝ) + 0.01) + Real.log (1 + (|(7200 : ℝ) - 0| / 3600) ^ (0.25 : ℝ)))) :=
  ⟨by norm_num, c2_date_score_formulas 2 7200 0 (by norm_num)⟩

/-- C3 counterexample: at distance `-0.01` the denominator
`(distance + 0.01) ** 2` is exactly zero, so `calculate_top_score` raises
`ZeroDivisionError` (embedded as `none`) instead of returning a value. -/
theorem c3_counterexample : calculate_top_score (-0.01) 0 true = none := by
  have h : ((-0.01 : ℝ) + 0.01) ^ 2 = 0 := by norm_num
  simp [calculate_top_score, h]

/-- C3 (amended): for every distance `d` with `d + 0.01 ≠ 0` and every
bookmark count and orientation, `calculate_top_score` returns a value
without raising; at `d = -0.01` it raises `ZeroDivisionError`. -/
theorem c3_total_away_from_singularity (d b : ℝ) (o : Bool) (h : d + 0.01 ≠ 0) :
    (calculate_top_score d b o).isSome := by
  have h2 : (d + 0.01) ^ 2 ≠ 0 := pow_ne_zero 2 h
  cases o <;> simp [calculate_top_score, h2]

theorem c3_total_away_from_singularity_witness :
    (0 : ℝ) + 0.01 ≠ 0 ∧ (calculate_top_score 0 0 true).isSome :=
  ⟨by norm_num, c3_total_away_from_singularity 0 0 true (by norm_num)⟩

/-- C10: `calculate_date_score` is symmetric in its two date arguments, for
every distance, orientation, and pair of timestamps (the dates only enter
through `abs((item_date - reference_date).total_seconds())`). -/
theorem c10_date_score_symmetric (d t1 t2 : ℝ) (o : Bool) :
    calculate_date_score d t1 t2 o = calculate_date_score d t2 t1 o := by
  simp [calculate_date_score, abs_sub_comm t1 t2]

/-- Helper: `calculate_date_score` applied to `ref + sec` against `ref` does not
depend on `ref`, since the dates only enter through their difference. -/
theorem date_score_ref_invariant (d sec r1 r2 : ℝ) (o : Bool) :
    calculate_date_score d (r1 + sec) r1 o = calculate_date_score d (r2 + sec) r2 o := by
  simp [calculate_date_score, add_sub_cancel_left]

/-- C4: the score grid of a scale is deterministic per scenario name: two runs
with different wall-clock reference dates (the `datetime.datetime.now()` taken
for date scales) produce identical grids. -/
theorem c4_grid_deterministic (scenario : String) (scale : Scale) (r1 r2 : ℝ) :
    score_grid scenario scale r1 = score_grid scenario scale r2 := by
  obtain ⟨xr, yr, lab⟩ := scale
  cases yr with
  | numeric lo hi => rfl
  | timedelta lo hi =>
      simp only [score_grid]
      congr 1
      funext sec
      congr 1
      funext x
      exact date_score_ref_invariant x sec r1 r2 _

/-- C5: for `d > 0` and `b > 0`, the descending popularity score at `b`
bookmarks strictly exceeds the score at `0` bookmarks. -/
theorem c5_desc_monotone_in_bookmarks (d b : ℝ) (hd : 0 < d) (hb : 0 < b) (x y : ℝ)
    (hx : calculate_top_score d b true = some x)
    (hy : calculate_top_score d 0 true = some y) : y < x := by
  have hpos : (0 : ℝ) < d + 0.01 := by linarith
  have h2 : (d + 0.01) ^ 2 ≠ 0 := ne_of_gt (pow_pos hpos 2)
  simp [calculate_top_score, h2] at hx hy
  have hlog : 0 < Real.log (1 + b) := Real.log_pos (by linarith)
  subst hx hy
  linarith

theorem c5_desc_monotone_in_bookmarks_witness :
    (0 : ℝ) < 1 ∧ (0 : ℝ) < 7 ∧
    calculate_top_score 1 7 true = some (1 / ((1 : ℝ) + 0.01) ^ 2 + Real.log (1 + 7) * 2) ∧
    calculate_top_score 1 0 true = some (1 / ((1 : ℝ) + 0.01) ^ 2 + Real.log (1 + 0) * 2) ∧
    1 / ((1 : ℝ) + 0.01) ^ 2 + Real.log (1 + 0) * 2
      < 1 / ((1 : ℝ) + 0.01) ^ 2 + Real.log (1 + 7) * 2 := by
  have hx : calculate_top_score 1 7 true
      = some (1 / ((1 : ℝ) + 0.01) ^ 2 + Real.log (1 + 7) * 2) := by
    simp [calculate_top_score]; norm_num
  have hy : calculate_top_score 1 0 true
      = some (1 / ((1 : ℝ) + 0.01) ^ 2 + Real.log (1 + 0) * 2) := by
    simp [calculate_top_score]; norm_num
  exact ⟨by norm_num, by norm_num, hx, hy,
    c5_desc_monotone_in_bookmarks 1 7 (by norm_num) (by norm_num) _ _ hx hy⟩

/-- C6: for every distance `d`, the ascending popularity score is strictly
decreasing in the bookmark count: `b1 < b2` gives a strictly smaller score
at `b2` (vacuous at the raising input `d = -0.01`, which returns no value). -/
theorem c6_asc_strictly_decreasing (d b1 b2 : ℝ) (hb : b1 < b2) (x1 x2 : ℝ)
    (h1 : calculate_top_score d b1 false = some x1)
    (h2 : calculate_top_score d b2 false = some x2) : x2 < x1 := by
  by_cases hz : (d + 0.01) ^ 2 = 0
  · simp [calculate_top_score, hz] at h1
  · simp [calculate_top_score, hz] at h1 h2
    subst h1 h2
    have hexp : Real.exp (-b2 / 5) < Real.exp (-b1 / 5) :=
      Real.exp_lt_exp.mpr (by linarith)
    nlinarith [hexp]

theorem c6_asc_strictly_decreasing_witness :
    (0 : ℝ) < 5 ∧
    calculate_top_score 0 0 false = some (1 / ((0 : ℝ) + 0.01) ^ 2 + Real.exp (-0 / 5) * 20) ∧
    calculate_top_score 0 5 false = some (1 / ((0 : ℝ) + 0.01) ^ 2 + Real.exp (-5 / 5) * 20) ∧
    1 / ((0 : ℝ) + 0.01) ^ 2 + Real.exp (-5 / 5) * 20
      < 1 / ((0 : ℝ) + 0.01) ^ 2 + Real.exp (-0 / 5) * 20 := by
  have h1 : calculate_top_score 0 0 false
      = some (1 / ((0 : ℝ) + 0.01) ^ 2 + Real.exp (-0 / 5) * 20) := by
    simp [calculate_top_score]; norm_num
  have h2 : calculate_top_score 0 5 false
      = some (1 / ((0 : ℝ) + 0.01) ^ 2 + Real.exp (-5 / 5) * 20) := by
    simp [calculate_top_score]; norm_num
  exact ⟨by norm_num, h1, h2,
    c6_asc_strictly_decreasing 0 0 5 (by norm_num) _ _ h1 h2⟩

/-- C7: zero temporal offset gives the closed forms
`calculate_date_score d t t true = 1/(d+0.01) + 100` (since `exp(-0^0.25) = 1`)
and `calculate_date_score d t t false = 1/(d+0.01)` (since `ln(1+0^0.25) = 0`),
for every distance `d` away from the raising point `d = -0.01`. -/
theorem c7_zero_offset_closed_forms (d t : ℝ) (h : d + 0.01 ≠ 0) :
    calculate_date_score d t t true = some (1 / (d + 0.01) + 100) ∧
    calculate_date_score d t t false = some (1 / (d + 0.01)) := by
  have h0 : (0 : ℝ) ^ (0.25 : ℝ) = 0 := Real.zero_rpow (by norm_num)
  constructor <;>
    simp [calculate_date_score, h, sub_self, h0, Real.exp_zero, Real.log_one]

theorem c7_zero_offset_closed_forms_witness :
    (1 : ℝ) + 0.01 ≠ 0 ∧
    (calculate_date_score 1 42 42 true = some (1 / ((1 : ℝ) + 0.01) + 100) ∧
      calculate_date_score 1 42 42 false = some (1 / ((1 : ℝ) + 0.01))) :=
  ⟨by norm_num, c7_zero_offset_closed_forms 1 42 (by norm_num)⟩

/-- Helper: every `linspace _ _ 100` sample list has exactly 100 entries. -/
theorem linspace_length (a b : ℝ) (n : ℕ) : (linspace a b n).length = n := by
  simp [linspace]

/-- C8: for every scenario, scale and reference date, the score grid has
exactly 100 rows of 100 entries each (its row-length profile is 100 copies of
100), and consecutive `linspace` samples over any range with 100 points differ
by the constant step `(b - a)/99` — the sampling is evenly spaced. -/
theorem c8_grid_is_100_by_100 (scenario : String) (scale : Scale) (ref : ℝ) :
    (score_grid scenario scale ref).map List.length = List.replicate 100 100 ∧
    ∀ (a b : ℝ) (i : ℕ),
      linspace_val a b 100 (i + 1) - linspace_val a b 100 i = (b - a) / 99 := by
  constructor
  · obtain ⟨xr, yr, lab⟩ := scale
    cases yr with
    | numeric lo hi =>
        simp [score_grid, List.map_map, Function.comp_def, linspace_length,
          List.eq_replicate_iff, linspace, List.mem_map]
    | timedelta lo hi =>
        simp [score_grid, List.map_map, Function.comp_def, linspace_length,
          List.eq_replicate_iff, linspace, List.mem_map]
  · intro a b i
    simp only [linspace_val]
    push_cast
    ring

/-- C9: a complete run writes one image file per scenario, four in total, whose
paths are exactly `./plots/<scenario_name>_combined.png` for the four scenario
names, in order. -/
theorem c9_output_filenames :
    output_files =
      ["./plots/EmbedTopAsc_combined.png",
       "./plots/EmbedTopDesc_combined.png",
       "./plots/EmbedDateCreatedAsc_combined.png",
       "./plots/EmbedDateCreatedDesc_combined.png"] ∧
    output_files.length = 4 := by
  constructor <;> rfl
